import Mathlib

/-!
Verification development for `camoufox_profile_gui.py`, a tkinter GUI that
manages browser profiles by invoking an external command-line script.

The embedding models:
* JSON values and a parser standing in for Python's `json.loads`
  (restricted to the JSON subset the GUI's contract uses);
* the GUI state (the Treeview rows and the status bar text);
* user-visible side effects (message boxes, subprocess spawns, the
  background-worker dispatch) as an explicit effect trace;
* the methods `run_command`, `refresh_profiles`, `create_profile`,
  `edit_profile`, `delete_profile`, `open_profile` of `CamoufoxProfileGUI`,
  and `ProfileDialog.ok_clicked` / `cancel_clicked`, as pure functions of
  the state, the user's choices, and the outcomes of child processes.
-/

namespace CamoufoxGui

/-- A JSON value, as produced by `json.loads` (numbers restricted to
integers; the GUI's contract only ever carries strings). -/
inductive JsonValue where
  | null
  | bool (b : Bool)
  | num (n : Int)
  | str (s : String)
  | arr (xs : List JsonValue)
  | obj (fields : List (String × JsonValue))

/-- Python truthiness of a parsed JSON value (`None`, `False`, `0`, `""`,
`[]`, `{}` are falsy). Used by `profile.get("proxy_host")` in a boolean
context. -/
def truthy : JsonValue → Bool
  | .null => false
  | .bool b => b
  | .num n => n != 0
  | .str s => s != ""
  | .arr xs => !xs.isEmpty
  | .obj fs => !fs.isEmpty

/-- Model of `dict.get(k)`: `some v` when the key is present, `none` otherwise.
When duplicate keys occur the last one wins, as in Python's `json.loads`. -/
def jsonGet : List (String × JsonValue) → String → Option JsonValue
  | [], _ => none
  | (k', v) :: rest, k =>
      match jsonGet rest k with
      | some v' => some v'
      | none => if k' = k then some v else none

/-- Skip JSON whitespace. -/
def skipWs : List Char → List Char
  | c :: rest =>
      if c = ' ' ∨ c = '\t' ∨ c = '\n' ∨ c = '\r' then skipWs rest else c :: rest
  | [] => []

/-- Parse the body of a JSON string after the opening quote, up to the
closing quote, handling the common escapes. -/
def parseStringBody : List Char → String → Option (String × List Char)
  | [], _ => none
  | '"' :: rest, acc => some (acc, rest)
  | '\\' :: e :: rest, acc =>
      match e with
      | '"' => parseStringBody rest (acc.push '"')
      | '\\' => parseStringBody rest (acc.push '\\')
      | '/' => parseStringBody rest (acc.push '/')
      | 'n' => parseStringBody rest (acc.push '\n')
      | 't' => parseStringBody rest (acc.push '\t')
      | 'r' => parseStringBody rest (acc.push '\r')
      | _ => none
  | '\\' :: [], _ => none
  | c :: rest, acc => parseStringBody rest (acc.push c)

/-- Consume a run of decimal digits, accumulating their value. -/
def digitsLoop : List Char → Nat → Nat × List Char
  | c :: rest, acc =>
      if c.isDigit then digitsLoop rest (acc * 10 + (c.toNat - 48))
      else (acc, c :: rest)
  | [], acc => (acc, [])

/-- Parse one or more decimal digits. -/
def parseDigits : List Char → Option (Nat × List Char)
  | c :: rest =>
      if c.isDigit then some (digitsLoop rest (c.toNat - 48))
      else none
  | [] => none

mutual

/-- Parse one JSON value. `fuel` bounds the recursion depth; `jsonLoads`
supplies enough fuel for any input it is given. -/
def parseValue : Nat → List Char → Option (JsonValue × List Char)
  | 0, _ => none
  | fuel + 1, cs =>
      match skipWs cs with
      | [] => none
      | 'n' :: 'u' :: 'l' :: 'l' :: rest => some (.null, rest)
      | 't' :: 'r' :: 'u' :: 'e' :: rest => some (.bool true, rest)
      | 'f' :: 'a' :: 'l' :: 's' :: 'e' :: rest => some (.bool false, rest)
      | '"' :: rest =>
          match parseStringBody rest "" with
          | some (s, r) => some (.str s, r)
          | none => none
      | '[' :: rest =>
          match skipWs rest with
          | ']' :: r2 => some (.arr [], r2)
          | r1 => parseElems fuel r1 []
      | '\x7b' :: rest =>
          match skipWs rest with
          | '\x7d' :: r2 => some (.obj [], r2)
          | r1 => parseMembers fuel r1 []
      | '-' :: rest =>
          match parseDigits rest with
          | some (n, r) => some (.num (-(n : Int)), r)
          | none => none
      | c :: rest =>
          if c.isDigit then
            match parseDigits (c :: rest) with
            | some (n, r) => some (.num (n : Int), r)
            | none => none
          else none

/-- Parse the comma-separated elements of a JSON array (after at least one
element is known to be present), up to the closing bracket. -/
def parseElems : Nat → List Char → List JsonValue → Option (JsonValue × List Char)
  | 0, _, _ => none
  | fuel + 1, cs, acc =>
      match parseValue fuel cs with
      | none => none
      | some (v, r) =>
          match skipWs r with
          | ',' :: r2 => parseElems fuel r2 (acc ++ [v])
          | ']' :: r2 => some (.arr (acc ++ [v]), r2)
          | _ => none

/-- Parse the comma-separated members of a JSON object (after at least one
member is known to be present), up to the closing brace. -/
def parseMembers : Nat → List Char → List (String × JsonValue) →
    Option (JsonValue × List Char)
  | 0, _, _ => none
  | fuel + 1, cs, acc =>
      match skipWs cs with
      | '"' :: rest =>
          match parseStringBody rest "" with
          | none => none
          | some (k, r) =>
              match skipWs r with
              | ':' :: r2 =>
                  match parseValue fuel r2 with
                  | none => none
                  | some (v, r3) =>
                      match skipWs r3 with
                      | ',' :: r4 => parseMembers fuel r4 (acc ++ [(k, v)])
                      | '\x7d' :: r4 => some (.obj (acc ++ [(k, v)]), r4)
                      | _ => none
              | _ => none
      | _ => none

end

/-- Model of Python's `json.loads`: parse a complete JSON document,
rejecting trailing garbage. Returns `none` where `json.loads` raises
`json.JSONDecodeError`. -/
def jsonLoads (s : String) : Option JsonValue :=
  match parseValue (s.length + 1) s.data with
  | some (v, rest) => if (skipWs rest).isEmpty then some v else none
  | none => none

/-- Whitespace in the sense of Python's `str.strip()`. -/
def isPySpace (c : Char) : Bool :=
  c = ' ' ∨ c = '\t' ∨ c = '\n' ∨ c = '\r' ∨ c = '\x0b' ∨ c = '\x0c'

/-- Drop leading characters satisfying `isPySpace`. -/
def pyStripLeft : List Char → List Char
  | c :: rest => if isPySpace c then pyStripLeft rest else c :: rest
  | [] => []

/-- Model of Python's `str.strip()` with no argument: remove leading and
trailing whitespace. -/
def pyStrip (s : String) : String :=
  ⟨(pyStripLeft (pyStripLeft s.data).reverse).reverse⟩

/-- Row of the profiles Treeview: the four `values` of a tree item
(`id`, `name`, `storage_path`, and the derived `proxy` column holding
`"yes"` or `"no"`). The tree widget stores values as strings. -/
structure Row where
  id : String
  name : String
  storage_path : String
  proxy : String
deriving Repr, DecidableEq

/-- Conversion of a Python value to the string a tree cell stores.
The `list --json` contract only ever supplies strings for `id`, `name`
and `storage_path`; the other cases model the widget stringifying a
non-string value. -/
def tclStr : JsonValue → String
  | .str s => s
  | .num n => toString n
  | .bool b => if b then "1" else "0"
  | .null => "None"
  | .arr _ => "<list>"
  | .obj _ => "<dict>"

/-- The mutable GUI state the claims are about: the Treeview contents and
the status-bar text (`self.status_var`). -/
structure GuiState where
  tree : List Row
  status : String
deriving Repr, DecidableEq

/-- Observable side effects, in the order they happen. -/
inductive Effect where
  /-- Effect of `subprocess.run(cmd, ...)` invoked with this argument vector. -/
  | spawn (cmd : List String)
  /-- Effect of `messagebox.showerror(title, msg)`. -/
  | showError (title msg : String)
  /-- Effect of `messagebox.showinfo(title, msg)`. -/
  | showInfo (title msg : String)
  /-- Effect of `messagebox.showwarning(title, msg)`. -/
  | showWarning (title msg : String)
  /-- Effect of `messagebox.askyesnocancel(title, msg)`: the three-way confirmation
  dialog was presented. -/
  | ask3 (title msg : String)
  /-- Effect of `threading.Thread(target=..., daemon=True).start()`: a detached
  background worker was dispatched. -/
  | dispatchWorker
deriving Repr, DecidableEq

/-- Outcome of one attempted child-process invocation, supplied by the
environment: either `subprocess.run` raised (interpreter or script
missing, ...), or the child ran and exited with a code and captured
stdout/stderr. -/
inductive CmdResult where
  | spawnFailure (e : String)
  | exited (returncode : Int) (stdout stderr : String)
deriving Repr, DecidableEq

/-- A Python exception that no handler in the GUI source catches. -/
inductive PyErr where
  | keyError (key : String)
  | attributeError
  | typeError
deriving Repr, DecidableEq

/-- Result of running one GUI handler: the state afterwards, the effect
trace, and an uncaught exception when the handler raised. -/
structure StepResult where
  state : GuiState
  effects : List Effect
  uncaught : Option PyErr
deriving Repr, DecidableEq

/-- Path `self.python_path` (relative to the project root). -/
def python_path : String := ".venv/bin/python"

/-- Path `self.script_path` (relative to the project root). -/
def script_path : String := "scripts/manage_camoufox_profiles.py"

/-- Method `CamoufoxProfileGUI.run_command(cmd, show_output)`: run the command,
return its stdout on exit 0 (showing it when `show_output` and nonempty),
otherwise show a blocking error (stderr, falling back to stdout) and
return `None`; a spawn exception is shown as an error too. The `finally`
clause leaves the status bar at `"Ready"` on every path. -/
def run_command (cmd : List String) (show_output : Bool) (res : CmdResult)
    (st : GuiState) : Option String × GuiState × List Effect :=
  match res with
  | .spawnFailure e =>
      (none, { st with status := "Ready" },
        [.spawn cmd, .showError "Error" ("Failed to run command: " ++ e)])
  | .exited rc out err =>
      if rc = 0 then
        (some out, { st with status := "Ready" },
          [.spawn cmd] ++
            (if show_output ∧ pyStrip out ≠ "" then [.showInfo "Command Output" out]
             else []))
      else
        (none, { st with status := "Ready" },
          [.spawn cmd,
           .showError "Error"
             ("Command failed:" ++ "\n" ++
               (if pyStrip err ≠ "" then pyStrip err else pyStrip out))])

/-- Stand-in for the `str(e)` detail of a `json.JSONDecodeError`. -/
def jsonErrorStr : String := "<JSONDecodeError>"

/-- The `for profile in profiles:` body of `refresh_profiles`: compute the
proxy column from the truthiness of `profile.get("proxy_host")`, then look
up `id`, `name`, `storage_path` (a missing key raises `KeyError`; a
non-dict element raises `AttributeError` at `.get`) and append the row to
the tree. Returns the state at the point the loop ends or raises. -/
def insertProfiles : List JsonValue → GuiState → GuiState × Option PyErr
  | [], st => (st, none)
  | p :: rest, st =>
      match p with
      | .obj fields =>
          let proxy_status :=
            if truthy ((jsonGet fields "proxy_host").getD .null) then "yes" else "no"
          match jsonGet fields "id" with
          | none => (st, some (.keyError "id"))
          | some i =>
              match jsonGet fields "name" with
              | none => (st, some (.keyError "name"))
              | some n =>
                  match jsonGet fields "storage_path" with
                  | none => (st, some (.keyError "storage_path"))
                  | some sp =>
                      insertProfiles rest
                        { st with
                            tree := st.tree ++
                              [⟨tclStr i, tclStr n, tclStr sp, proxy_status⟩] }
      | _ => (st, some .attributeError)

/-- Method `CamoufoxProfileGUI.refresh_profiles`: clear the tree, run
`list --json`, and when the command returned truthy (non-empty) stdout,
parse it and repopulate the tree; only `json.JSONDecodeError` is caught.
Iterating a non-list document follows Python: a non-empty dict or string
raises `AttributeError` at the first element's `.get`, a scalar raises
`TypeError`; an empty dict or string yields an empty loop. -/
def refresh_profiles (st : GuiState) (listRes : CmdResult) : StepResult :=
  let st1 : GuiState := { st with tree := [], status := "Refreshing profiles..." }
  let cmd := [python_path, script_path, "list", "--json"]
  match run_command cmd false listRes st1 with
  | (none, st2, effs) => ⟨st2, effs, none⟩
  | (some out, st2, effs) =>
      if out = "" then ⟨st2, effs, none⟩
      else
        match jsonLoads out with
        | none =>
            ⟨{ st2 with status := "Error loading profiles" },
              effs ++ [.showError "Error" ("Failed to parse profiles: " ++ jsonErrorStr)],
              none⟩
        | some (.arr profiles) =>
            match insertProfiles profiles st2 with
            | (st3, none) =>
                ⟨{ st3 with
                    status := "Loaded " ++ toString profiles.length ++ " profiles" },
                  effs, none⟩
            | (st3, some e) => ⟨st3, effs, some e⟩
        | some (.obj fields) =>
            if fields.isEmpty then
              ⟨{ st2 with status := "Loaded 0 profiles" }, effs, none⟩
            else ⟨st2, effs, some .attributeError⟩
        | some (.str s) =>
            if s = "" then
              ⟨{ st2 with status := "Loaded 0 profiles" }, effs, none⟩
            else ⟨st2, effs, some .attributeError⟩
        | some _ => ⟨st2, effs, some .typeError⟩

/-- The `initial_data` dict passed to `ProfileDialog` (create passes none,
meaning `{}`). -/
structure DialogInit where
  name : String
  storage_path : String
  proxy : String
deriving Repr, DecidableEq

/-- The three entry widgets' current contents. -/
structure DialogFields where
  name : String
  storage : String
  proxy : String
deriving Repr, DecidableEq

/-- The dict `ProfileDialog.ok_clicked` stores in `self.result`. -/
structure DialogResult where
  name : String
  storage_path : String
  proxy : String
deriving Repr, DecidableEq

/-- Fields `self.result` and whether `self.dialog.destroy()` has run. -/
structure DialogState where
  result : Option DialogResult
  destroyed : Bool
deriving Repr, DecidableEq

/-- Initial entry contents from `initial_data.get(key, "")`
(`ProfileDialog.setup_dialog`). -/
def ProfileDialog.init_fields (initial_data : Option DialogInit) : DialogFields :=
  match initial_data with
  | none => ⟨"", "", ""⟩
  | some d => ⟨d.name, d.storage_path, d.proxy⟩

/-- Method `ProfileDialog.ok_clicked` (also bound to the Return key): reject a
blank trimmed name with a blocking error and leave the dialog untouched;
otherwise store the trimmed fields in `result` and destroy the dialog. -/
def ProfileDialog.ok_clicked (f : DialogFields) (d : DialogState) :
    DialogState × List Effect :=
  if pyStrip f.name = "" then
    (d, [.showError "Error" "Profile name is required!"])
  else
    (⟨some ⟨pyStrip f.name, pyStrip f.storage, pyStrip f.proxy⟩, true⟩, [])

/-- Method `ProfileDialog.cancel_clicked` (also bound to Escape): destroy the
dialog leaving `result` as it is. -/
def ProfileDialog.cancel_clicked (d : DialogState) : DialogState × List Effect :=
  ({ d with destroyed := true }, [])

/-- Method `CamoufoxProfileGUI.get_selected_profile` when nothing is selected
shows this warning and returns `None`. -/
def no_selection_effects : List Effect :=
  [.showWarning "No Selection" "Please select a profile first."]

/-- Method `CamoufoxProfileGUI.create_profile`: open the dialog; when it produced
a result, build the `create` command (with `--proxy` / `--storage-path`
only for truthy fields), run it, and on a truthy (non-`None`, non-empty)
stdout show a success box and refresh. `dialogResult` is the dialog's
`result` after the user closed it; `createRes` and `listRes` are the
outcomes of the two possible child processes. -/
def create_profile (dialogResult : Option DialogResult)
    (createRes listRes : CmdResult) (st : GuiState) : StepResult :=
  match dialogResult with
  | none => ⟨st, [], none⟩
  | some r =>
      let cmd := [python_path, script_path, "create", r.name]
        ++ (if r.proxy ≠ "" then ["--proxy", r.proxy] else [])
        ++ (if r.storage_path ≠ "" then ["--storage-path", r.storage_path] else [])
      match run_command cmd false createRes st with
      | (some out, st1, effs) =>
          if out ≠ "" then
            let rr := refresh_profiles st1 listRes
            ⟨rr.state,
              effs ++
                [.showInfo "Success"
                  ("Profile '" ++ r.name ++ "' created successfully!")] ++
                rr.effects,
              rr.uncaught⟩
          else ⟨st1, effs, none⟩
      | (none, st1, effs) => ⟨st1, effs, none⟩

/-- The `initial_data` `edit_profile` builds for the dialog: the selected
row's name, its storage path unless it is the `"default"` sentinel, and an
always-empty proxy (the stored proxy is never echoed back). -/
def edit_dialog_init (r : Row) : DialogInit :=
  { name := r.name
    storage_path := if r.storage_path ≠ "default" then r.storage_path else ""
    proxy := "" }

/-- Method `CamoufoxProfileGUI.edit_profile`: require a selection, open the
dialog pre-filled by `edit_dialog_init`, and when it produced a result run
`edit <id>` with `--name`/`--proxy`/`--storage-path` for the truthy
fields; on truthy stdout show a success box and refresh. -/
def edit_profile (sel : Option Row) (dialogResult : Option DialogResult)
    (editRes listRes : CmdResult) (st : GuiState) : StepResult :=
  match sel with
  | none => ⟨st, no_selection_effects, none⟩
  | some r =>
      match dialogResult with
      | none => ⟨st, [], none⟩
      | some d =>
          let cmd := [python_path, script_path, "edit", r.id]
            ++ (if d.name ≠ "" then ["--name", d.name] else [])
            ++ (if d.proxy ≠ "" then ["--proxy", d.proxy] else [])
            ++ (if d.storage_path ≠ "" then ["--storage-path", d.storage_path] else [])
          match run_command cmd false editRes st with
          | (some out, st1, effs) =>
              if out ≠ "" then
                let rr := refresh_profiles st1 listRes
                ⟨rr.state,
                  effs ++
                    [.showInfo "Success"
                      ("Profile '" ++ r.name ++ "' updated successfully!")] ++
                    rr.effects,
                  rr.uncaught⟩
              else ⟨st1, effs, none⟩
          | (none, st1, effs) => ⟨st1, effs, none⟩

/-- The user's answer to `askyesnocancel`: `yes` = delete and remove
storage, `no` = delete but keep storage, `cancel` = abort. -/
inductive DeleteChoice where
  | yes
  | no
  | cancel
deriving Repr, DecidableEq

/-- The message of the delete confirmation dialog. -/
def delete_confirm_msg (name : String) : String :=
  "Delete profile '" ++ name ++ "'?" ++ "\n\n" ++
  "Choose:" ++ "\n" ++
  "• Yes: Delete profile and remove storage directory" ++ "\n" ++
  "• No: Delete profile but keep storage directory" ++ "\n" ++
  "• Cancel: Don't delete anything"

/-- Method `CamoufoxProfileGUI.delete_profile`: require a selection, present the
three-way confirmation; on Cancel return without running anything; else
run `delete <id>`, appending `--remove-storage` exactly on Yes, and on
truthy stdout show a success box and refresh. -/
def delete_profile (sel : Option Row) (choice : DeleteChoice)
    (delRes listRes : CmdResult) (st : GuiState) : StepResult :=
  match sel with
  | none => ⟨st, no_selection_effects, none⟩
  | some r =>
      let askEff : List Effect :=
        [.ask3 "Confirm Deletion" (delete_confirm_msg r.name)]
      match choice with
      | .cancel => ⟨st, askEff, none⟩
      | c =>
          let cmd := [python_path, script_path, "delete", r.id]
            ++ (if c = .yes then ["--remove-storage"] else [])
          match run_command cmd false delRes st with
          | (some out, st1, effs) =>
              if out ≠ "" then
                let action :=
                  if c = .yes then "and storage directory"
                  else "but kept storage directory"
                let rr := refresh_profiles st1 listRes
                ⟨rr.state,
                  askEff ++ effs ++
                    [.showInfo "Success"
                      ("Profile '" ++ r.name ++ "' deleted " ++ action ++ "!")] ++
                    rr.effects,
                  rr.uncaught⟩
              else ⟨st1, askEff ++ effs, none⟩
          | (none, st1, effs) => ⟨st1, askEff ++ effs, none⟩

/-- The body of the `run_open` closure that `open_profile` hands to the
background thread: run `open <id>` with `show_output=True`, so a
successful run with non-blank stdout pops an informational box and a
failure pops an error box; the return value is discarded. -/
def run_open (r : Row) (res : CmdResult) (st : GuiState) :
    GuiState × List Effect :=
  let (_, st1, effs) :=
    run_command [python_path, script_path, "open", r.id] true res st
  (st1, effs)

/-- Method `CamoufoxProfileGUI.open_profile`: require a selection, start a single
daemon thread running `run_open` (modelled by the `dispatchWorker`
effect; the worker's own behaviour is `run_open`), then immediately show
the acknowledgement box. No join, no refresh. -/
def open_profile (sel : Option Row) (st : GuiState) : StepResult :=
  match sel with
  | none => ⟨st, no_selection_effects, none⟩
  | some r =>
      ⟨st,
        [.dispatchWorker,
         .showInfo "Opening Profile"
           ("Opening profile '" ++ r.name ++ "' for manual login...")],
        none⟩

/-- True when an effect is a `showError` message box. -/
def isShowError : Effect → Bool
  | .showError _ _ => true
  | _ => false

/-- True when an effect is a subprocess spawn. -/
def isSpawn : Effect → Bool
  | .spawn _ => true
  | _ => false

/-- Number of subprocess invocations in an effect trace. -/
def spawnCount (effs : List Effect) : Nat :=
  (effs.filter isSpawn).length

/-- Failure of a single invocation as the spec's error taxonomy has it:
the spawn raised, or the child exited nonzero. -/
def cmdFailed : CmdResult → Prop
  | .spawnFailure _ => True
  | .exited rc _ _ => rc ≠ 0

/-- Failure of a refresh's `list` invocation as the claims have it:
spawn failure, nonzero exit, or a JSON parse failure on its stdout. -/
def listFailed : CmdResult → Prop
  | .spawnFailure _ => True
  | .exited rc out _ => rc ≠ 0 ∨ (out ≠ "" ∧ jsonLoads out = none)

/-- The spec's example `list --json` stdout: one profile with a truthy
`proxy_host`. -/
def demoListOutput : String :=
  "[\x7b\"id\":\"p1\",\"name\":\"A\",\"storage_path\":\"default\",\"proxy_host\":\"1.2.3.4\"\x7d]"

/-- A `list --json` stdout whose second element lacks the `id` key. -/
def demoBadListOutput : String :=
  "[\x7b\"id\":\"p1\",\"name\":\"A\",\"storage_path\":\"default\"\x7d,\x7b\"name\":\"B\"\x7d]"

/-- Claim C8: on a nonzero exit the user-facing error is the trimmed
stderr, falling back to the trimmed stdout when stderr trims empty, and
the call returns `none`; a spawn failure is likewise reported with a
blocking error box and returns `none`; on exit zero the call returns the
captured stdout. -/
theorem C8_run_command_error_reporting (cmd : List String) (show_output : Bool)
    (st : GuiState) (rc : Int) (out err e : String) (hrc : rc ≠ 0) :
    run_command cmd show_output (.exited rc out err) st =
      (none, { st with status := "Ready" },
        [.spawn cmd,
         .showError "Error"
           ("Command failed:" ++ "\n" ++
             (if pyStrip err ≠ "" then pyStrip err else pyStrip out))]) ∧
    run_command cmd show_output (.spawnFailure e) st =
      (none, { st with status := "Ready" },
        [.spawn cmd, .showError "Error" ("Failed to run command: " ++ e)]) ∧
    (run_command cmd show_output (.exited 0 out err) st).1 = some out := by
  refine ⟨?_, rfl, ?_⟩
  · simp [run_command, hrc]
  · simp [run_command]

/-- Witness for C8 at a concrete failing invocation. -/
theorem C8_run_command_error_reporting_witness :
    run_command ["c"] false (.exited 2 "out" " boom ") ⟨[], "s"⟩ =
      (none, ⟨[], "Ready"⟩,
        [.spawn ["c"], .showError "Error" ("Command failed:" ++ "\n" ++ "boom")]) ∧
    run_command ["c"] false (.spawnFailure "gone") ⟨[], "s"⟩ =
      (none, ⟨[], "Ready"⟩,
        [.spawn ["c"], .showError "Error" ("Failed to run command: " ++ "gone")]) ∧
    (run_command ["c"] false (.exited 0 "out" " boom ") ⟨[], "s"⟩).1 = some "out" := by
  obtain ⟨h1, h2, h3⟩ :=
    C8_run_command_error_reporting ["c"] false ⟨[], "s"⟩ 2 "out" " boom " "gone"
      (by decide)
  refine ⟨?_, h2, h3⟩
  rw [h1]
  decide

/-- Claim C9: when the `list --json` child exits zero with stdout that
parses to the empty JSON array, the refreshed table has zero rows and the
status message reports that zero profiles were loaded. -/
theorem C9_empty_list_refresh (st : GuiState) (out err : String)
    (h : jsonLoads out = some (.arr [])) :
    (refresh_profiles st (.exited 0 out err)).state =
      ⟨[], "Loaded " ++ toString (0 : Nat) ++ " profiles"⟩ := by
  have hout : out ≠ "" := by
    intro he
    rw [he] at h
    simp [jsonLoads, parseValue, skipWs] at h
  simp [refresh_profiles, run_command, hout, h, insertProfiles]

/-- Witness for C9 at the concrete stdout `"[]"`. -/
theorem C9_empty_list_refresh_witness :
    (refresh_profiles ⟨[⟨"a", "b", "c", "no"⟩], "Ready"⟩ (.exited 0 "[]" "x")).state =
      ⟨[], "Loaded " ++ toString (0 : Nat) ++ " profiles"⟩ :=
  C9_empty_list_refresh ⟨[⟨"a", "b", "c", "no"⟩], "Ready"⟩ "[]" "x" rfl

/-- Claim C1 as stated is false: `refresh_profiles` clears the table
before invoking `list`, so a failing refresh does not leave a non-empty
prior table in its prior state — here a one-row table ends up empty. -/
theorem C1_counterexample :
    (refresh_profiles ⟨[⟨"a", "b", "c", "no"⟩], "Ready"⟩
        (.exited 1 "" "boom")).state.tree ≠
      (⟨[⟨"a", "b", "c", "no"⟩], "Ready"⟩ : GuiState).tree := by
  decide

/-- Claim C1 (amended): for every refresh whose `list` invocation fails
(nonzero exit, spawn failure, or a JSON parse failure on its stdout), an
error is reported and the displayed table is left empty — it was cleared
at the start of the refresh — and is never partially updated. -/
theorem C1_refresh_failure_clears_table (st : GuiState) (res : CmdResult)
    (h : listFailed res) :
    (refresh_profiles st res).state.tree = [] ∧
    (refresh_profiles st res).effects.any isShowError = true := by
  cases res with
  | spawnFailure e =>
      simp [refresh_profiles, run_command, isShowError]
  | exited rc out err =>
      have h' : rc ≠ 0 ∨ (out ≠ "" ∧ jsonLoads out = none) := h
      rcases h' with hrc | ⟨hout, hparse⟩
      · simp [refresh_profiles, run_command, hrc, isShowError]
      · by_cases h0 : rc = 0
        · simp [refresh_profiles, run_command, h0, hout, hparse, isShowError]
        · simp [refresh_profiles, run_command, h0, isShowError]

/-- Witness for the amended C1 at a concrete nonzero-exit refresh. -/
theorem C1_refresh_failure_clears_table_witness :
    (refresh_profiles ⟨[⟨"a", "b", "c", "no"⟩], "Ready"⟩
        (.exited 1 "" "boom")).state.tree = [] ∧
    (refresh_profiles ⟨[⟨"a", "b", "c", "no"⟩], "Ready"⟩
        (.exited 1 "" "boom")).effects.any isShowError = true :=
  C1_refresh_failure_clears_table ⟨[⟨"a", "b", "c", "no"⟩], "Ready"⟩
    (.exited 1 "" "boom") (Or.inl (by decide))

/-- Claim C2: when the external tool fails (spawn failure or nonzero
exit) during create, edit, or delete, the operation is treated as failed:
the table is exactly its pre-operation contents and only the one
operation subprocess was spawned — the `list` refresh never ran. -/
theorem C2_failed_op_preserves_table (st : GuiState) (d : DialogResult) (r : Row)
    (opRes listRes : CmdResult) (h : cmdFailed opRes) :
    ((create_profile (some d) opRes listRes st).state.tree = st.tree ∧
      spawnCount (create_profile (some d) opRes listRes st).effects = 1) ∧
    ((edit_profile (some r) (some d) opRes listRes st).state.tree = st.tree ∧
      spawnCount (edit_profile (some r) (some d) opRes listRes st).effects = 1) ∧
    ((delete_profile (some r) .yes opRes listRes st).state.tree = st.tree ∧
      spawnCount (delete_profile (some r) .yes opRes listRes st).effects = 1) ∧
    ((delete_profile (some r) .no opRes listRes st).state.tree = st.tree ∧
      spawnCount (delete_profile (some r) .no opRes listRes st).effects = 1) := by
  cases opRes with
  | spawnFailure e =>
      simp [create_profile, edit_profile, delete_profile, run_command,
        spawnCount, isSpawn, List.filter]
  | exited rc out err =>
      have hrc : rc ≠ 0 := h
      simp [create_profile, edit_profile, delete_profile, run_command,
        hrc, spawnCount, isSpawn, List.filter]

/-- Witness for C2 at a concrete nonzero-exit operation. -/
theorem C2_failed_op_preserves_table_witness :
    (create_profile (some ⟨"A", "", ""⟩) (.exited 2 "" "err") (.exited 0 "[]" "")
        ⟨[⟨"a", "b", "c", "no"⟩], "Ready"⟩).state.tree =
      (⟨[⟨"a", "b", "c", "no"⟩], "Ready"⟩ : GuiState).tree ∧
    spawnCount (create_profile (some ⟨"A", "", ""⟩) (.exited 2 "" "err")
        (.exited 0 "[]" "") ⟨[⟨"a", "b", "c", "no"⟩], "Ready"⟩).effects = 1 :=
  (C2_failed_op_preserves_table ⟨[⟨"a", "b", "c", "no"⟩], "Ready"⟩ ⟨"A", "", ""⟩
    ⟨"a", "b", "c", "no"⟩ (.exited 2 "" "err") (.exited 0 "[]" "")
    (by decide : (2 : Int) ≠ 0)).1

/-- Claim C3 as stated is false: the detached worker does report results
back to the user — `run_open` passes `show_output=True`, so a successful
`open` with non-blank stdout pops an informational box with that output. -/
theorem C3_counterexample :
    Effect.showInfo "Command Output" "opened profile" ∈
      (run_open ⟨"p1", "A", "default", "no"⟩ (.exited 0 "opened profile" "")
        ⟨[], "Ready"⟩).2 := by
  decide

/-- Claim C3 (amended): every open dispatches exactly one detached
background worker which the GUI thread never awaits; the GUI acknowledges
the action immediately and does not refresh or otherwise modify the
table, and the worker itself never modifies the table either (it only
reports the tool's output or failure in dialog boxes). -/
theorem C3_open_dispatch (r : Row) (st : GuiState) :
    open_profile (some r) st =
      ⟨st, [.dispatchWorker,
            .showInfo "Opening Profile"
              ("Opening profile '" ++ r.name ++ "' for manual login...")],
        none⟩ ∧
    ∀ (res : CmdResult) (st2 : GuiState), (run_open r res st2).1.tree = st2.tree := by
  refine ⟨rfl, ?_⟩
  intro res st2
  cases res with
  | spawnFailure e => rfl
  | exited rc out err =>
      simp only [run_open, run_command]
      split <;> rfl

/-- Claim C4: submitting the create/edit dialog with a name that is blank
after trimming shows a blocking error, leaves the dialog state untouched
(not destroyed, no result), spawns nothing, and a dialog that produced no
result makes the caller do nothing at all. -/
theorem C4_blank_name_keeps_dialog_open (f : DialogFields) (d : DialogState)
    (h : pyStrip f.name = "") :
    ProfileDialog.ok_clicked f d =
      (d, [.showError "Error" "Profile name is required!"]) ∧
    spawnCount (ProfileDialog.ok_clicked f d).2 = 0 ∧
    (∀ (createRes listRes : CmdResult) (st : GuiState),
      create_profile none createRes listRes st = ⟨st, [], none⟩) := by
  refine ⟨?_, ?_, fun _ _ _ => rfl⟩
  · simp [ProfileDialog.ok_clicked, h]
  · simp [ProfileDialog.ok_clicked, h, spawnCount, isSpawn, List.filter]

/-- Witness for C4 at a concrete all-whitespace name. -/
theorem C4_blank_name_keeps_dialog_open_witness :
    ProfileDialog.ok_clicked ⟨"   ", "s", "p"⟩ ⟨none, false⟩ =
      (⟨none, false⟩, [.showError "Error" "Profile name is required!"]) ∧
    spawnCount (ProfileDialog.ok_clicked ⟨"   ", "s", "p"⟩ ⟨none, false⟩).2 = 0 ∧
    (∀ (createRes listRes : CmdResult) (st : GuiState),
      create_profile none createRes listRes st = ⟨st, [], none⟩) :=
  C4_blank_name_keeps_dialog_open ⟨"   ", "s", "p"⟩ ⟨none, false⟩ (by decide)

/-- Claim C5: deleting a selected profile first presents the three-way
confirmation (it is the first effect on every path); Cancel performs no
invocation at all, Yes runs `delete <id> --remove-storage`, and No runs
`delete <id>` without the flag. -/
theorem C5_delete_three_way (st : GuiState) (r : Row) (delRes listRes : CmdResult) :
    delete_profile (some r) .cancel delRes listRes st =
      ⟨st, [.ask3 "Confirm Deletion" (delete_confirm_msg r.name)], none⟩ ∧
    .spawn [python_path, script_path, "delete", r.id, "--remove-storage"] ∈
      (delete_profile (some r) .yes delRes listRes st).effects ∧
    .spawn [python_path, script_path, "delete", r.id] ∈
      (delete_profile (some r) .no delRes listRes st).effects ∧
    (∀ c : DeleteChoice,
      (delete_profile (some r) c delRes listRes st).effects.head? =
        some (.ask3 "Confirm Deletion" (delete_confirm_msg r.name))) := by
  refine ⟨rfl, ?_, ?_, ?_⟩
  · cases delRes with
    | spawnFailure e => simp [delete_profile, run_command]
    | exited rc out err =>
        by_cases h0 : rc = 0
        · simp [delete_profile, run_command, h0]
          split <;> simp
        · simp [delete_profile, run_command, h0]
  · cases delRes with
    | spawnFailure e => simp [delete_profile, run_command]
    | exited rc out err =>
        by_cases h0 : rc = 0
        · simp [delete_profile, run_command, h0]
          split <;> simp
        · simp [delete_profile, run_command, h0]
  · intro c
    cases c with
    | cancel => rfl
    | yes =>
        cases delRes with
        | spawnFailure e => simp [delete_profile, run_command]
        | exited rc out err =>
            by_cases h0 : rc = 0
            · simp [delete_profile, run_command, h0]
              split <;> simp
            · simp [delete_profile, run_command, h0]
    | no =>
        cases delRes with
        | spawnFailure e => simp [delete_profile, run_command]
        | exited rc out err =>
            by_cases h0 : rc = 0
            · simp [delete_profile, run_command, h0]
              split <;> simp
            · simp [delete_profile, run_command, h0]

/-- The parsed fields of `demoListOutput`'s single object. -/
def demoFields : List (String × JsonValue) :=
  [("id", .str "p1"), ("name", .str "A"), ("storage_path", .str "default"),
   ("proxy_host", .str "1.2.3.4")]

/-- Claim C6: a parsed profile object's row shows proxy `"yes"` exactly
when its `proxy_host` field is present and truthy, `"no"` otherwise; and
the spec's single-object example with `proxy_host` `"1.2.3.4"` refreshes
to one row whose proxy value is `"yes"`. -/
theorem C6_proxy_column (st : GuiState) (out : String)
    (fields : List (String × JsonValue)) (i n sp : JsonValue)
    (hparse : jsonLoads out = some (.arr [.obj fields]))
    (hid : jsonGet fields "id" = some i)
    (hname : jsonGet fields "name" = some n)
    (hsp : jsonGet fields "storage_path" = some sp) :
    (refresh_profiles st (.exited 0 out "")).state.tree =
      [⟨tclStr i, tclStr n, tclStr sp,
        if truthy ((jsonGet fields "proxy_host").getD .null) then "yes" else "no"⟩] ∧
    (refresh_profiles ⟨[], "Ready"⟩ (.exited 0 demoListOutput "")).state.tree =
      [⟨"p1", "A", "default", "yes"⟩] := by
  have hout : out ≠ "" := by
    intro he
    rw [he] at hparse
    simp [jsonLoads, parseValue, skipWs] at hparse
  constructor
  · simp [refresh_profiles, run_command, hout, hparse, insertProfiles,
      hid, hname, hsp]
  · rfl

/-- Witness for C6 at the spec's example output. -/
theorem C6_proxy_column_witness :
    (refresh_profiles ⟨[], "Ready"⟩ (.exited 0 demoListOutput "")).state.tree =
      [⟨tclStr (.str "p1"), tclStr (.str "A"), tclStr (.str "default"),
        if truthy ((jsonGet demoFields "proxy_host").getD .null) then "yes"
        else "no"⟩] :=
  (C6_proxy_column ⟨[], "Ready"⟩ demoListOutput demoFields
    (.str "p1") (.str "A") (.str "default") rfl rfl rfl rfl).1

/-- Claim C7: the edit dialog's proxy field always starts empty, and the
dialog's initial fields depend only on the selected row's id, name and
storage path — rows differing only in the proxy column give identical
initial dialog states. -/
theorem C7_edit_dialog_proxy_empty (r r1 r2 : Row)
    (_hid : r1.id = r2.id) (hname : r1.name = r2.name)
    (hsp : r1.storage_path = r2.storage_path) :
    (ProfileDialog.init_fields (some (edit_dialog_init r))).proxy = "" ∧
    ProfileDialog.init_fields (some (edit_dialog_init r1)) =
      ProfileDialog.init_fields (some (edit_dialog_init r2)) := by
  refine ⟨rfl, ?_⟩
  simp [ProfileDialog.init_fields, edit_dialog_init, hname, hsp]

/-- Witness for C7: two rows differing only in the proxy column. -/
theorem C7_edit_dialog_proxy_empty_witness :
    (ProfileDialog.init_fields (some (edit_dialog_init ⟨"a", "b", "c", "yes"⟩))).proxy
      = "" ∧
    ProfileDialog.init_fields (some (edit_dialog_init ⟨"a", "b", "c", "yes"⟩)) =
      ProfileDialog.init_fields (some (edit_dialog_init ⟨"a", "b", "c", "no"⟩)) :=
  C7_edit_dialog_proxy_empty ⟨"a", "b", "c", "yes"⟩ ⟨"a", "b", "c", "yes"⟩
    ⟨"a", "b", "c", "no"⟩ rfl rfl rfl

/-- Claim C10: a parsed element missing `id`, `name` or `storage_path`
raises a `KeyError` that no handler catches (the handler only catches
`json.JSONDecodeError`), and the rows already inserted stay in the tree;
concretely, a two-element document whose second element lacks `id` leaves
the table populated with exactly the first element's row. -/
theorem C10_missing_key_partial_population (st : GuiState)
    (fields : List (String × JsonValue)) (rest : List JsonValue) (i n : JsonValue) :
    (jsonGet fields "id" = none →
      insertProfiles (.obj fields :: rest) st = (st, some (.keyError "id"))) ∧
    (jsonGet fields "id" = some i → jsonGet fields "name" = none →
      insertProfiles (.obj fields :: rest) st = (st, some (.keyError "name"))) ∧
    (jsonGet fields "id" = some i → jsonGet fields "name" = some n →
      jsonGet fields "storage_path" = none →
      insertProfiles (.obj fields :: rest) st = (st, some (.keyError "storage_path"))) ∧
    refresh_profiles ⟨[], "Ready"⟩ (.exited 0 demoBadListOutput "") =
      ⟨⟨[⟨"p1", "A", "default", "no"⟩], "Ready"⟩,
        [.spawn [python_path, script_path, "list", "--json"]],
        some (.keyError "id")⟩ := by
  refine ⟨?_, ?_, ?_, rfl⟩
  · intro h
    simp [insertProfiles, h]
  · intro h1 h2
    simp [insertProfiles, h1, h2]
  · intro h1 h2 h3
    simp [insertProfiles, h1, h2, h3]

/-- Witness for C10 at an object lacking the `id` key. -/
theorem C10_missing_key_partial_population_witness :
    insertProfiles [.obj [("name", .str "B")]] ⟨[⟨"x", "y", "z", "no"⟩], "s"⟩ =
      (⟨[⟨"x", "y", "z", "no"⟩], "s"⟩, some (.keyError "id")) :=
  (C10_missing_key_partial_population ⟨[⟨"x", "y", "z", "no"⟩], "s"⟩
    [("name", .str "B")] [] .null .null).1 rfl

end CamoufoxGui
